import Mathlib

/-!
Verification development for the bonsai-water pump/monitor controller.

The definitions below are a shallow embedding of the pump-control core of
`src/bonsai.py` (namespace `Bonsai`) and of its plugin variant
`src/plugins/bonsai_plugin.py` (namespace `Plugin`):

* the pump run worker `_pump_worker` (clamping of the requested run length,
  the 100ms polling loop with its three exit paths, and the guaranteed
  cleanup block that de-energizes the relay, logs the watering event and
  resets the pump record),
* the `start_pump` / `stop_pump` operations and their locking structure,
* the configuration merge `_load_config` (Python `dict.copy` + `dict.update`),
* one cycle of `monitor_loop` (moisture read/log, status derivation, and the
  auto-watering gate).

Wall-clock times are modelled as integers; per-tick observations of the
shutdown flag, the stop event and `time.time()` are supplied as an explicit
trace, so the polling loop becomes a function from the trace to the selected
stop reason.
-/

/-- Moisture percentages as produced by `_convert_moisture` (a float rounded
to one decimal); the claims only pass these values through, so we model them
as rationals. -/
abbrev Moisture := ℚ

/-- One observation made by one iteration of the worker's polling loop:
the values of `self._shutdown.is_set()`, `self._pump_stop_requested.is_set()`
and `time.time()` as seen at that tick. -/
structure TickObs where
  shutdown : Bool
  stop : Bool
  now : Int
deriving DecidableEq, Repr

/-- The `PumpState` dataclass of `src/bonsai.py` (lines 70-76) and
`src/plugins/bonsai_plugin.py` (lines 42-48). -/
structure PumpState where
  running : Bool
  mode : String
  started_at : Int
  ends_at : Int
  stop_reason : String
deriving DecidableEq, Repr

/-- One row of the `watering_events` table as assembled by `_log_watering`
in the worker's cleanup block (timestamp omitted; it is presentation only). -/
structure WateringEvent where
  duration_seconds : Int
  moisture_before : Option Moisture
  moisture_after : Option Moisture
  mode : String
  stop_reason : String
deriving DecidableEq, Repr

/-- The two runtime-cap entries of the configuration that `_pump_worker`
reads (`pump_max_runtime_seconds`, `manual_max_runtime_seconds`). -/
structure CapsConfig where
  pump_max_runtime_seconds : Int
  manual_max_runtime_seconds : Int
deriving DecidableEq, Repr

/-- The compiled-in cap defaults (120 and 30, from `DEFAULT_CONFIG`). -/
def defaultCaps : CapsConfig := ⟨120, 30⟩

/-- An externally visible side effect of one pump run, in the order the
worker performs it: a relay write (`_set_pump_output`), the append of the
watering event (`_log_watering`), or the reset of the pump record to idle. -/
inductive RunEffect where
  | output (turnOn : Bool)
  | water (w : WateringEvent)
  | reset
deriving DecidableEq, Repr

/-- Everything one terminated `_pump_worker` call produces: the clamped run
length, the pump record as published at run start and after teardown, the
selected stop reason, the logged watering event, the teardown values of
`manual_toggle_on` and of the stop event, and the effect trace. -/
structure WorkerResult where
  run_seconds : Int
  runPump : PumpState
  stop_reason : String
  watering : WateringEvent
  finalPump : PumpState
  manual_toggle_on : Bool
  stop_requested : Bool
  effects : List RunEffect
deriving DecidableEq, Repr

/-- Projection of a worker result onto the components claim C10 compares
between the two application variants. -/
structure RunOutcome where
  run_seconds : Int
  stop_reason : String
  watering : WateringEvent
  finalPump : PumpState
deriving DecidableEq, Repr

def WorkerResult.outcome (r : WorkerResult) : RunOutcome :=
  ⟨r.run_seconds, r.stop_reason, r.watering, r.finalPump⟩

namespace Bonsai

/-- Selection of `max_allowed` in `_pump_worker` (src/bonsai.py lines
319-325): the manual cap for manual mode, the auto cap otherwise. -/
def max_allowed (cfg : CapsConfig) (mode : String) : Int :=
  if mode = "manual" then cfg.manual_max_runtime_seconds
  else cfg.pump_max_runtime_seconds

/-- Clamping of the requested run length (src/bonsai.py line 327):
`run_seconds = max(1, min(int(requested_seconds), max_allowed))`. -/
def run_seconds_of (cfg : CapsConfig) (mode : String) (requested : Int) : Int :=
  max 1 (min requested (max_allowed cfg mode))

/-- The worker's polling loop (src/bonsai.py lines 342-351) with the local
variable `stop_reason` threaded through (initialized to "completed" at line
340, re-read only on the shutdown exit since both break paths overwrite it).
Each list element is one iteration's observations; `none` means the supplied
trace ended before the loop did. -/
def pump_loop_aux (mode : String) (deadline : Int) (stop_reason : String) :
    List TickObs → Option String
  | [] => none
  | o :: rest =>
    if o.shutdown then some stop_reason
    else if o.stop then some "manual_stop"
    else if deadline ≤ o.now then
      some (if mode = "manual" then "safety_timeout" else "completed")
    else pump_loop_aux mode deadline stop_reason rest

/-- The polling loop entered with `stop_reason = "completed"`
(src/bonsai.py lines 340-351). -/
def pump_loop_reason (mode : String) (deadline : Int) (obs : List TickObs) :
    Option String :=
  pump_loop_aux mode deadline "completed" obs

/-- Shallow embedding of `_pump_worker` (src/bonsai.py lines 318-370).
`startedRec` is the `time.time()` read in the start lock section (line 332),
`started` the one read just before the loop (line 339), `endNow` the one
read in the cleanup block (line 354), and `after` the `_read_moisture()`
result of the cleanup block. Returns `none` when the observation trace is
too short for the loop to terminate. -/
def pump_worker (cfg : CapsConfig) (mode : String) (requested : Int)
    (before : Option Moisture) (startedRec started : Int) (obs : List TickObs)
    (endNow : Int) (after : Option Moisture) : Option WorkerResult :=
  let rs := run_seconds_of cfg mode requested
  match pump_loop_reason mode (started + rs) obs with
  | none => none
  | some reason =>
    let w : WateringEvent := ⟨endNow - started, before, after, mode, reason⟩
    some {
      run_seconds := rs
      runPump := ⟨true, mode, startedRec, startedRec + rs, ""⟩
      stop_reason := reason
      watering := w
      finalPump := ⟨false, "idle", 0, 0, reason⟩
      manual_toggle_on := false
      stop_requested := false
      effects := [RunEffect.output true, RunEffect.output false,
                  RunEffect.water w, RunEffect.reset] }

/-- The `stop_pump` operation (src/bonsai.py lines 386-387): it sets the
stop event unconditionally; nothing in `stop_pump` or `start_pump` ever
clears it — only the worker's teardown (line 368) does. -/
def stop_pump (stopEvent : Bool) : Bool :=
  let _ := stopEvent
  true

end Bonsai

namespace Plugin

/-- Selection of `max_allowed` in the plugin worker
(src/plugins/bonsai_plugin.py line 319). -/
def max_allowed (cfg : CapsConfig) (mode : String) : Int :=
  if mode = "manual" then cfg.manual_max_runtime_seconds
  else cfg.pump_max_runtime_seconds

/-- Clamping of the requested run length
(src/plugins/bonsai_plugin.py line 320). -/
def run_seconds_of (cfg : CapsConfig) (mode : String) (requested : Int) : Int :=
  max 1 (min requested (max_allowed cfg mode))

/-- The plugin worker's polling loop
(src/plugins/bonsai_plugin.py lines 335-343). -/
def pump_loop_aux (mode : String) (deadline : Int) (stop_reason : String) :
    List TickObs → Option String
  | [] => none
  | o :: rest =>
    if o.shutdown then some stop_reason
    else if o.stop then some "manual_stop"
    else if deadline ≤ o.now then
      some (if mode = "manual" then "safety_timeout" else "completed")
    else pump_loop_aux mode deadline stop_reason rest

/-- The plugin polling loop entered with `stop_reason = "completed"`
(src/plugins/bonsai_plugin.py lines 333-343). -/
def pump_loop_reason (mode : String) (deadline : Int) (obs : List TickObs) :
    Option String :=
  pump_loop_aux mode deadline "completed" obs

/-- The plugin's `_set_pump_output` applied to the relay line
(src/plugins/bonsai_plugin.py lines 311-314): a no-op unless GPIO
initialization succeeded; otherwise it drives the active-low line
(`PUMP_ON_LEVEL = GPIO.LOW = 0`, `PUMP_OFF_LEVEL = GPIO.HIGH = 1`). -/
def set_pump_output (gpio_ready : Bool) (turnOn : Bool) (relay : Int) : Int :=
  if ¬ gpio_ready then relay
  else if turnOn then 0 else 1

/-- The relay writes one `_set_pump_output` call contributes to the worker's
effect trace: none when GPIO is not ready. -/
def output_effects (gpio_ready : Bool) (turnOn : Bool) : List RunEffect :=
  if gpio_ready then [RunEffect.output turnOn] else []

/-- Shallow embedding of the plugin's `_pump_worker`
(src/plugins/bonsai_plugin.py lines 316-361); parameters as in
`Bonsai.pump_worker`, plus the `gpio_ready` flag gating relay writes. -/
def pump_worker (gpio_ready : Bool) (cfg : CapsConfig) (mode : String)
    (requested : Int) (before : Option Moisture) (startedRec started : Int)
    (obs : List TickObs) (endNow : Int) (after : Option Moisture) :
    Option WorkerResult :=
  let rs := run_seconds_of cfg mode requested
  match pump_loop_reason mode (started + rs) obs with
  | none => none
  | some reason =>
    let w : WateringEvent := ⟨endNow - started, before, after, mode, reason⟩
    some {
      run_seconds := rs
      runPump := ⟨true, mode, startedRec, startedRec + rs, ""⟩
      stop_reason := reason
      watering := w
      finalPump := ⟨false, "idle", 0, 0, reason⟩
      manual_toggle_on := false
      stop_requested := false
      effects := output_effects gpio_ready true ++ output_effects gpio_ready false
        ++ [RunEffect.water w, RunEffect.reset] }

/-- Reply of the plugin's `start_pump` (src/plugins/bonsai_plugin.py lines
363-378): the `(ok, message)` pair together with the arguments of the worker
thread it spawns, if any. -/
structure StartReply where
  ok : Bool
  message : String
  spawned : Option (String × Int × Option Moisture)
deriving DecidableEq, Repr

/-- The plugin's `start_pump` (src/plugins/bonsai_plugin.py lines 363-378):
reject when GPIO is not ready, reject when a run is already active,
otherwise snapshot `current_moisture` and spawn the worker. -/
def start_pump (gpio_ready : Bool) (running : Bool)
    (current_moisture : Option Moisture) (mode : String) (seconds : Int) :
    StartReply :=
  if ¬ gpio_ready then ⟨false, "GPIO not ready; pump control unavailable.", none⟩
  else if running then ⟨false, "Pump already running", none⟩
  else ⟨true, "Pump started", some (mode, seconds, current_moisture)⟩

end Plugin

namespace Bonsai

/-!
Interleaving model for concurrent `start_pump` calls (claim C1).

In `src/bonsai.py`, a `start_pump` call executes ONE critical section under
`self.lock` (lines 373-376): it reads `self.pump.running`, returns the
rejection if it is true, and otherwise snapshots `current_moisture`. The
transition of the record to `running = True` is NOT part of that critical
section: it happens in a SECOND, later acquisition of the same lock inside
the spawned worker thread (lines 329-334). We model each of these two
critical sections as one atomic step and consider two concurrent
`start_pump` calls, A and B, issued while the controller is idle; an
arbitrary interleaving of their steps is a list of `StartOp`s (a check step
is a no-op once that call has returned, and a begin step only fires for an
accepted call whose worker has not begun yet).
-/

/-- The shared controller state visible to the two competing starts:
`pump.running` plus each call's return value, `none` while the call has not
executed its check yet, and whether each accepted call's worker thread has
executed its start section yet. -/
structure StartRaceState where
  running : Bool
  resA : Option Bool
  resB : Option Bool
  beganA : Bool
  beganB : Bool
deriving DecidableEq, Repr

/-- The idle controller before either call runs. -/
def raceInit : StartRaceState := ⟨false, none, none, false, false⟩

/-- The four atomic lock-protected critical sections of two concurrent
`start_pump` calls: `checkA`/`checkB` are the check sections of
`start_pump` (src/bonsai.py lines 373-376); `beginA`/`beginB` are the
worker start sections (lines 329-334) of the threads they spawn. -/
inductive StartOp where
  | checkA
  | checkB
  | beginA
  | beginB
deriving DecidableEq, Repr

/-- Effect of one atomic critical section on the shared state. -/
def raceStep (s : StartRaceState) : StartOp → StartRaceState
  | .checkA =>
    if s.resA.isSome then s
    else if s.running then { s with resA := some false }
    else { s with resA := some true }
  | .checkB =>
    if s.resB.isSome then s
    else if s.running then { s with resB := some false }
    else { s with resB := some true }
  | .beginA =>
    if s.resA = some true ∧ ¬ s.beganA then { s with running := true, beganA := true }
    else s
  | .beginB =>
    if s.resB = some true ∧ ¬ s.beganB then { s with running := true, beganB := true }
    else s

/-- Execution of an interleaving of the two concurrent starts. -/
def raceRun (ops : List StartOp) : StartRaceState :=
  ops.foldl raceStep raceInit

end Bonsai

/-!
Configuration merge (`_load_config`), claim C8. Python dictionaries are
modelled as insertion-ordered association lists; `dictInsert` is a single
`d[k] = v` (replace in place if the key exists, else append, exactly the
CPython semantics that `dict.update` iterates), and `dictUpdate` is
`d.update(s)`.
-/

/-- A JSON-representable configuration value. -/
inductive CVal where
  | int (n : Int)
  | bool (b : Bool)
  | str (s : String)
deriving DecidableEq, Repr

/-- A Python dict as an insertion-ordered association list. -/
abbrev CDict := List (String × CVal)

/-- Key lookup, first (and for a genuine dict, only) occurrence. -/
def dictLookup : CDict → String → Option CVal
  | [], _ => none
  | kv :: rest, k => if kv.1 = k then some kv.2 else dictLookup rest k

/-- Python `d[k] = v`: replace the value of the first occurrence of `k`
in place, else append the new pair at the end. -/
def dictInsert : CDict → String → CVal → CDict
  | [], k, v => [(k, v)]
  | kv :: rest, k, v =>
    if kv.1 = k then (k, v) :: rest else kv :: dictInsert rest k v

/-- Python `d.update(s)`: assign every pair of `s` into `d`, in order. -/
def dictUpdate (d : CDict) : CDict → CDict
  | [] => d
  | kv :: rest => dictUpdate (dictInsert d kv.1 kv.2) rest

/-- The compiled-in `DEFAULT_CONFIG` of src/bonsai.py (lines 53-67). -/
def DEFAULT_CONFIG : CDict :=
  [("moisture_threshold_low", .int 35),
   ("moisture_threshold_high", .int 65),
   ("watering_duration_seconds", .int 60),
   ("min_water_interval_seconds", .int 28800),
   ("sensor_read_interval_seconds", .int 300),
   ("pump_max_runtime_seconds", .int 120),
   ("manual_max_runtime_seconds", .int 30),
   ("auto_watering_enabled", .bool true),
   ("ha_enabled", .bool false),
   ("ha_base_url", .str "http://homeassistant.local:8123"),
   ("ha_token", .str ""),
   ("ha_switch_entity", .str ""),
   ("ha_light_entity", .str "")]

/-- Shallow embedding of `_load_config` (src/bonsai.py lines 105-112):
if the config file exists, start from a copy of the defaults and
`dict.update` the persisted mapping onto it; else return the defaults. -/
def load_config (fileExists : Bool) (saved : CDict) : CDict :=
  if fileExists then dictUpdate DEFAULT_CONFIG saved else DEFAULT_CONFIG

namespace Bonsai

/-!
One cycle of `monitor_loop` (src/bonsai.py lines 513-559), claim C9.
-/

/-- The configuration fields one monitor cycle consults. -/
structure MonCfg where
  auto_watering_enabled : Bool
  moisture_threshold_low : Moisture
  moisture_threshold_high : Moisture
  min_water_interval_seconds : Int
  watering_duration_seconds : Int
deriving DecidableEq, Repr

/-- The controller state one monitor cycle reads and writes. -/
structure MonState where
  current_moisture : Option Moisture
  last_water_time : Int
  pump_running : Bool
deriving DecidableEq, Repr

/-- What one monitor cycle produces: the new moisture cache, the
`moisture_readings` rows appended this cycle, the OLED status label, and
the `start_pump` invocation of the auto-watering gate, if any. -/
structure CycleResult where
  current_moisture : Option Moisture
  moistureLog : List Moisture
  status : String
  startCall : Option (String × Int)
deriving DecidableEq, Repr

/-- One cycle of `monitor_loop` (src/bonsai.py lines 513-559): read the
sensor; if a reading is present, update the cache and append a
MoistureReading (lines 517-521, before and independent of any gate); derive
the status label (lines 525-540); and evaluate the auto-watering gate
(lines 545-552), which alone consults `auto_watering_enabled`. -/
def monitor_cycle (cfg : MonCfg) (st : MonState) (reading : Option Moisture)
    (now : Int) : CycleResult :=
  let cur := match reading with
    | some m => some m
    | none => st.current_moisture
  let log := match reading with
    | some m => [m]
    | none => []
  let status0 := match cur with
    | none => "WAIT"
    | some m =>
      if m < cfg.moisture_threshold_low then "DRY"
      else if m > cfg.moisture_threshold_high then "WET"
      else "OK"
  let status := if st.pump_running then "PUMP" else status0
  let startCall := match cur with
    | none => none
    | some m =>
      if cfg.auto_watering_enabled then
        let interval_ok := cfg.min_water_interval_seconds ≤ now - st.last_water_time
        let idle := ¬ st.pump_running
        let needs_water := m < cfg.moisture_threshold_low
        if needs_water ∧ interval_ok ∧ idle then
          some ("auto", cfg.watering_duration_seconds)
        else none
      else none
  ⟨cur, log, status, startCall⟩

/-!
Classification of which exit condition fires first on a given observation
trace, mirroring the order of the checks inside the polling loop
(src/bonsai.py lines 343-350): the `while` condition on the shutdown flag,
then the stop event, then the deadline.
-/

/-- The trace makes the loop exit through the stop-event branch: some tick
observes the stop event with the shutdown flag clear, and every earlier
tick observes neither flag and a time before the deadline. -/
def stop_exit_first (deadline : Int) : List TickObs → Bool
  | [] => false
  | o :: rest =>
    if o.shutdown then false
    else if o.stop then true
    else if deadline ≤ o.now then false
    else stop_exit_first deadline rest

/-- The trace makes the loop exit through the deadline branch: some tick
reaches the deadline with both flags clear, and every earlier tick observes
neither flag and a time before the deadline. -/
def timeout_exit_first (deadline : Int) : List TickObs → Bool
  | [] => false
  | o :: rest =>
    if o.shutdown then false
    else if o.stop then false
    else if deadline ≤ o.now then true
    else timeout_exit_first deadline rest

/-- The trace makes the loop exit through the `while` condition: some tick
observes the shutdown flag, and every earlier tick observes no stop event
and a time before the deadline. -/
def shutdown_exit_first (deadline : Int) : List TickObs → Bool
  | [] => false
  | o :: rest =>
    if o.shutdown then true
    else if o.stop then false
    else if deadline ≤ o.now then false
    else shutdown_exit_first deadline rest

end Bonsai

/-! Helper lemmas shared by the claim theorems below. -/

theorem dictLookup_insert (d : CDict) (k k' : String) (v : CVal) :
    dictLookup (dictInsert d k v) k' = if k = k' then some v else dictLookup d k' := by
  induction d with
  | nil => simp [dictInsert, dictLookup]
  | cons kv rest ih =>
    by_cases h1 : kv.1 = k
    · by_cases h2 : k = k' <;> simp [dictInsert, dictLookup, h1, h2]
    · by_cases h2 : k = k'
      · subst h2
        simp [dictInsert, dictLookup, h1, ih]
      · simp [dictInsert, dictLookup, h1, h2, ih]

theorem dictLookup_of_not_mem (s : CDict) (k : String)
    (h : k ∉ s.map Prod.fst) : dictLookup s k = none := by
  induction s with
  | nil => rfl
  | cons kv rest ih =>
    simp only [List.map_cons, List.mem_cons] at h
    push_neg at h
    rw [dictLookup, if_neg (Ne.symm h.1), ih h.2]

theorem dictUpdate_lookup_none (d s : CDict) (k : String)
    (h : dictLookup s k = none) :
    dictLookup (dictUpdate d s) k = dictLookup d k := by
  induction s generalizing d with
  | nil => rfl
  | cons kv rest ih =>
    rw [dictLookup] at h
    rw [dictUpdate]
    by_cases hk : kv.1 = k
    · simp [hk] at h
    · rw [if_neg hk] at h
      rw [ih _ h, dictLookup_insert, if_neg hk]

theorem dictUpdate_lookup_some (d s : CDict) (k : String) (v : CVal)
    (hnd : (s.map Prod.fst).Nodup) (h : dictLookup s k = some v) :
    dictLookup (dictUpdate d s) k = some v := by
  induction s generalizing d with
  | nil => simp [dictLookup] at h
  | cons kv rest ih =>
    simp only [List.map_cons, List.nodup_cons] at hnd
    rw [dictLookup] at h
    rw [dictUpdate]
    by_cases hk : kv.1 = k
    · rw [if_pos hk] at h
      have hrest : dictLookup rest k = none := by
        apply dictLookup_of_not_mem
        rw [← hk]
        exact hnd.1
      rw [dictUpdate_lookup_none _ _ _ hrest, dictLookup_insert, if_pos hk]
      exact congrArg some (Option.some.inj h)
    · rw [if_neg hk] at h
      exact ih _ hnd.2 h

namespace Bonsai

theorem pump_loop_aux_of_stop_first (mode : String) (deadline : Int) (r : String)
    (obs : List TickObs) (h : stop_exit_first deadline obs = true) :
    pump_loop_aux mode deadline r obs = some "manual_stop" := by
  induction obs with
  | nil => simp [stop_exit_first] at h
  | cons o rest ih =>
    rw [stop_exit_first] at h
    rw [pump_loop_aux]
    split_ifs at h ⊢ <;> simp_all

theorem pump_loop_aux_of_timeout_first (mode : String) (deadline : Int) (r : String)
    (obs : List TickObs) (h : timeout_exit_first deadline obs = true) :
    pump_loop_aux mode deadline r obs
      = some (if mode = "manual" then "safety_timeout" else "completed") := by
  induction obs with
  | nil => simp [timeout_exit_first] at h
  | cons o rest ih =>
    rw [timeout_exit_first] at h
    rw [pump_loop_aux]
    split_ifs at h ⊢ <;> simp_all

theorem pump_loop_aux_of_shutdown_first (mode : String) (deadline : Int) (r : String)
    (obs : List TickObs) (h : shutdown_exit_first deadline obs = true) :
    pump_loop_aux mode deadline r obs = some r := by
  induction obs with
  | nil => simp [shutdown_exit_first] at h
  | cons o rest ih =>
    rw [shutdown_exit_first] at h
    rw [pump_loop_aux]
    split_ifs at h ⊢ <;> simp_all

theorem pump_worker_map_stop_reason (cfg : CapsConfig) (mode : String)
    (requested : Int) (before : Option Moisture) (startedRec started : Int)
    (obs : List TickObs) (endNow : Int) (after : Option Moisture) :
    (pump_worker cfg mode requested before startedRec started obs endNow after).map
        (fun r => r.stop_reason)
      = pump_loop_reason mode (started + run_seconds_of cfg mode requested) obs := by
  unfold pump_worker
  cases h : pump_loop_reason mode (started + run_seconds_of cfg mode requested) obs <;>
    simp [h]

theorem pump_worker_map_watering_reason (cfg : CapsConfig) (mode : String)
    (requested : Int) (before : Option Moisture) (startedRec started : Int)
    (obs : List TickObs) (endNow : Int) (after : Option Moisture) :
    (pump_worker cfg mode requested before startedRec started obs endNow after).map
        (fun r => r.watering.stop_reason)
      = pump_loop_reason mode (started + run_seconds_of cfg mode requested) obs := by
  unfold pump_worker
  cases h : pump_loop_reason mode (started + run_seconds_of cfg mode requested) obs <;>
    simp [h]

end Bonsai

theorem plugin_pump_loop_aux_eq (mode : String) (deadline : Int) (r : String)
    (obs : List TickObs) :
    Plugin.pump_loop_aux mode deadline r obs
      = Bonsai.pump_loop_aux mode deadline r obs := by
  induction obs with
  | nil => rfl
  | cons o rest ih => rw [Plugin.pump_loop_aux, Bonsai.pump_loop_aux, ih]

theorem plugin_pump_loop_reason_eq (mode : String) (deadline : Int)
    (obs : List TickObs) :
    Plugin.pump_loop_reason mode deadline obs
      = Bonsai.pump_loop_reason mode deadline obs := by
  rw [Plugin.pump_loop_reason, Bonsai.pump_loop_reason, plugin_pump_loop_aux_eq]

theorem plugin_run_seconds_eq (cfg : CapsConfig) (mode : String) (requested : Int) :
    Plugin.run_seconds_of cfg mode requested
      = Bonsai.run_seconds_of cfg mode requested := rfl

/-!
The claim theorems.
-/

/-- Claim C1 (evidence of the divergence): in src/bonsai.py the check of
`pump.running` (start_pump, lines 373-376) and the transition of the record
to `running = True` (the spawned worker's lock section, lines 329-334) are
two separate critical sections of the lock, so in the interleaving where
both concurrent start calls execute their check before either spawned
worker thread has begun, BOTH calls return accepted during a single idle
period — the check-and-set is not atomic and two concurrent starts can both
win, against the claimed at-most-one-accepted property. -/
theorem start_race_both_accepted :
    (Bonsai.raceRun [Bonsai.StartOp.checkA, Bonsai.StartOp.checkB]).resA = some true ∧
    (Bonsai.raceRun [Bonsai.StartOp.checkA, Bonsai.StartOp.checkB]).resB = some true ∧
    (Bonsai.raceRun [Bonsai.StartOp.checkA, Bonsai.StartOp.checkB]).running = false := by
  decide

/-- Claim C2: when GPIO initialization did not succeed
(`gpio_ready = false`), the plugin's `start_pump` returns the rejection with
the hardware-unavailable message and spawns no worker (hence never
energizes the relay), and `_set_pump_output` is a no-op on the relay
line — the pump never silently pretends to run. -/
theorem start_pump_fail_closed_when_gpio_not_ready (running : Bool)
    (cur : Option Moisture) (mode : String) (seconds : Int) (turnOn : Bool)
    (relay : Int) :
    Plugin.start_pump false running cur mode seconds
      = ⟨false, "GPIO not ready; pump control unavailable.", none⟩ ∧
    Plugin.set_pump_output false turnOn relay = relay :=
  ⟨rfl, rfl⟩

/-- Claim C3: every terminated run, whatever exit condition fired (stop
signal, deadline, or global shutdown), performs its guaranteed-cleanup
steps in the order: de-energize the actuator output, then append the
WateringEvent, then reset the PumpRun record to idle. -/
theorem worker_cleanup_order (cfg : CapsConfig) (mode : String)
    (requested : Int) (before : Option Moisture) (startedRec started : Int)
    (obs : List TickObs) (endNow : Int) (after : Option Moisture)
    (res : WorkerResult)
    (h : Bonsai.pump_worker cfg mode requested before startedRec started obs
        endNow after = some res) :
    res.effects = [RunEffect.output true, RunEffect.output false,
                   RunEffect.water res.watering, RunEffect.reset] := by
  simp only [Bonsai.pump_worker] at h
  split at h
  · exact absurd h (by simp)
  · cases h
    rfl

/-- Witness for C3: a concrete automatic run that reaches its deadline. -/
theorem worker_cleanup_order_witness :
    ({ run_seconds := 60, runPump := ⟨true, "auto", 0, 60, ""⟩,
       stop_reason := "completed",
       watering := ⟨60, none, none, "auto", "completed"⟩,
       finalPump := ⟨false, "idle", 0, 0, "completed"⟩,
       manual_toggle_on := false, stop_requested := false,
       effects := [RunEffect.output true, RunEffect.output false,
                   RunEffect.water ⟨60, none, none, "auto", "completed"⟩,
                   RunEffect.reset] } : WorkerResult).effects
      = [RunEffect.output true, RunEffect.output false,
         RunEffect.water (⟨60, none, none, "auto", "completed"⟩ : WateringEvent),
         RunEffect.reset] :=
  worker_cleanup_order defaultCaps "auto" 60 none 0 0 [⟨false, false, 60⟩] 60
    none _ (by decide)

/-- Claim C4 (evidence of the divergence): `stop_pump` only sets the stop
event (src/bonsai.py lines 386-387) and the event is cleared exclusively by
a run's exit teardown (line 368), so a `stop_pump` issued while the
controller is idle leaves the event set; the next accepted run observes the
stale event on its very first poll tick and terminates immediately with
`stop_reason = "manual_stop"` and elapsed time 0, even though its deadline
is 60 seconds away and nobody called stop during the run — the stale stop
does leak into the next accepted run. -/
theorem stale_idle_stop_terminates_next_run :
    (Bonsai.pump_worker defaultCaps "auto" 60 none 0 0
        [⟨false, Bonsai.stop_pump false, 0⟩] 0 none).map (fun r => r.stop_reason)
      = some "manual_stop" ∧
    (Bonsai.pump_worker defaultCaps "auto" 60 none 0 0
        [⟨false, Bonsai.stop_pump false, 0⟩] 0 none).map
        (fun r => r.watering.duration_seconds)
      = some 0 := by
  decide

/-- Counterexample to claim C5 as stated: a run terminated by the global
shutdown flag on its first poll tick persists a WateringEvent whose
stop_reason is "completed" — the initializer of the worker's local
`stop_reason` variable (src/bonsai.py line 340) — and not the empty string
the claim names (the empty string is the initial value of the PumpRun
RECORD's stop_reason field, line 334, which is not what `_log_watering`
receives). -/
theorem shutdown_event_reason_cex :
    (Bonsai.pump_worker defaultCaps "auto" 60 none 0 0 [⟨true, false, 0⟩] 0
        none).map (fun r => r.watering.stop_reason) = some "completed" ∧
    ¬ (Bonsai.pump_worker defaultCaps "auto" 60 none 0 0 [⟨true, false, 0⟩] 0
        none).map (fun r => r.watering.stop_reason) = some "" := by
  decide

/-- Claim C5 (amended): if global shutdown terminates the polling loop
before a stop signal is observed and before the deadline elapses, the loop
exits without assigning a reason on either reason-bearing path, and the
WateringEvent persisted by the cleanup block carries the initial value of
the worker's local `stop_reason` variable, which is "completed". -/
theorem shutdown_exit_logs_completed (cfg : CapsConfig) (mode : String)
    (requested : Int) (before : Option Moisture) (startedRec started : Int)
    (obs : List TickObs) (endNow : Int) (after : Option Moisture)
    (h : Bonsai.shutdown_exit_first
        (started + Bonsai.run_seconds_of cfg mode requested) obs = true) :
    (Bonsai.pump_worker cfg mode requested before startedRec started obs
        endNow after).map (fun r => r.watering.stop_reason)
      = some "completed" := by
  rw [Bonsai.pump_worker_map_watering_reason, Bonsai.pump_loop_reason]
  exact Bonsai.pump_loop_aux_of_shutdown_first _ _ _ _ h

/-- Witness for C5 (amended): shutdown observed on the first tick of an
automatic run far from its deadline. -/
theorem shutdown_exit_logs_completed_witness :
    Bonsai.shutdown_exit_first
        (0 + Bonsai.run_seconds_of defaultCaps "auto" 60) [⟨true, false, 0⟩]
      = true ∧
    (Bonsai.pump_worker defaultCaps "auto" 60 none 0 0 [⟨true, false, 0⟩] 0
        none).map (fun r => r.watering.stop_reason) = some "completed" :=
  ⟨by decide,
   shutdown_exit_logs_completed defaultCaps "auto" 60 none 0 0
     [⟨true, false, 0⟩] 0 none (by decide)⟩

/-- Claim C6: for every run the worker launches, the effective run length
equals `max(1, min(requestedSeconds, cap))` with `cap` the manual cap in
manual mode and the auto cap otherwise; whenever the configured cap is at
least 1 this gives `1 ≤ run_seconds ≤ cap(mode)`, and the PumpRun record
published at run start satisfies `ends_at = started_at + run_seconds`. -/
theorem run_seconds_cap_clamp (cfg : CapsConfig) (mode : String)
    (requested : Int) (before : Option Moisture) (startedRec started : Int)
    (obs : List TickObs) (endNow : Int) (after : Option Moisture)
    (res : WorkerResult)
    (hcap : 1 ≤ (if mode = "manual" then cfg.manual_max_runtime_seconds
                 else cfg.pump_max_runtime_seconds))
    (h : Bonsai.pump_worker cfg mode requested before startedRec started obs
        endNow after = some res) :
    res.run_seconds
      = max 1 (min requested
          (if mode = "manual" then cfg.manual_max_runtime_seconds
           else cfg.pump_max_runtime_seconds)) ∧
    1 ≤ res.run_seconds ∧
    res.run_seconds ≤ (if mode = "manual" then cfg.manual_max_runtime_seconds
                       else cfg.pump_max_runtime_seconds) ∧
    res.runPump.ends_at = res.runPump.started_at + res.run_seconds := by
  have hres : res.run_seconds = Bonsai.run_seconds_of cfg mode requested ∧
      res.runPump = ⟨true, mode, startedRec,
        startedRec + Bonsai.run_seconds_of cfg mode requested, ""⟩ := by
    simp only [Bonsai.pump_worker] at h
    split at h
    · exact absurd h (by simp)
    · cases h
      exact ⟨rfl, rfl⟩
  obtain ⟨h1, h2⟩ := hres
  rw [h1, h2]
  unfold Bonsai.run_seconds_of Bonsai.max_allowed
  exact ⟨rfl, le_max_left 1 _, max_le hcap (min_le_right _ _), rfl⟩

/-- Witness for C6: a manual run requesting 45 seconds under the default
30-second manual cap runs for 30 seconds. -/
theorem run_seconds_cap_clamp_witness :
    let res : WorkerResult :=
      { run_seconds := 30, runPump := ⟨true, "manual", 0, 30, ""⟩,
        stop_reason := "safety_timeout",
        watering := ⟨30, none, none, "manual", "safety_timeout"⟩,
        finalPump := ⟨false, "idle", 0, 0, "safety_timeout"⟩,
        manual_toggle_on := false, stop_requested := false,
        effects := [RunEffect.output true, RunEffect.output false,
                    RunEffect.water ⟨30, none, none, "manual", "safety_timeout"⟩,
                    RunEffect.reset] }
    res.run_seconds
      = max 1 (min 45
          (if "manual" = "manual" then defaultCaps.manual_max_runtime_seconds
           else defaultCaps.pump_max_runtime_seconds)) ∧
    1 ≤ res.run_seconds ∧
    res.run_seconds
      ≤ (if "manual" = "manual" then defaultCaps.manual_max_runtime_seconds
         else defaultCaps.pump_max_runtime_seconds) ∧
    res.runPump.ends_at = res.runPump.started_at + res.run_seconds :=
  run_seconds_cap_clamp defaultCaps "manual" 45 none 0 0 [⟨false, false, 30⟩]
    30 none _ (by decide) (by decide)

/-- Claim C7: each tick checks the stop signal before the deadline, so a
run whose trace reaches a stop observation first (even on a tick where the
deadline has also been reached) ends with stop_reason "manual_stop"; a
manual run whose trace reaches the deadline first without a stop ends with
"safety_timeout", never "completed"; and an automatic run under the same
condition ends with "completed". -/
theorem stop_reason_selection (cfg : CapsConfig) (mode : String)
    (requested : Int) (before : Option Moisture) (startedRec started : Int)
    (obs : List TickObs) (endNow : Int) (after : Option Moisture) :
    (Bonsai.stop_exit_first
        (started + Bonsai.run_seconds_of cfg mode requested) obs = true →
      (Bonsai.pump_worker cfg mode requested before startedRec started obs
        endNow after).map (fun r => r.stop_reason) = some "manual_stop") ∧
    (Bonsai.timeout_exit_first
        (started + Bonsai.run_seconds_of cfg mode requested) obs = true →
      mode = "manual" →
      (Bonsai.pump_worker cfg mode requested before startedRec started obs
        endNow after).map (fun r => r.stop_reason) = some "safety_timeout") ∧
    (Bonsai.timeout_exit_first
        (started + Bonsai.run_seconds_of cfg mode requested) obs = true →
      mode = "auto" →
      (Bonsai.pump_worker cfg mode requested before startedRec started obs
        endNow after).map (fun r => r.stop_reason) = some "completed") := by
  refine ⟨fun h => ?_, fun h hm => ?_, fun h hm => ?_⟩ <;>
    rw [Bonsai.pump_worker_map_stop_reason, Bonsai.pump_loop_reason]
  · exact Bonsai.pump_loop_aux_of_stop_first _ _ _ _ h
  · rw [Bonsai.pump_loop_aux_of_timeout_first _ _ _ _ h, if_pos hm]
  · rw [Bonsai.pump_loop_aux_of_timeout_first _ _ _ _ h,
      if_neg (by rw [hm]; decide)]

/-- Witness for C7: all three exit classifications on concrete runs — a
stopped manual run, a manual run reaching its cap, and an automatic run
reaching its deadline. -/
theorem stop_reason_selection_witness :
    (Bonsai.pump_worker defaultCaps "manual" 30 none 0 0 [⟨false, true, 0⟩] 0
        none).map (fun r => r.stop_reason) = some "manual_stop" ∧
    (Bonsai.pump_worker defaultCaps "manual" 30 none 0 0 [⟨false, false, 30⟩]
        30 none).map (fun r => r.stop_reason) = some "safety_timeout" ∧
    (Bonsai.pump_worker defaultCaps "auto" 60 none 0 0 [⟨false, false, 60⟩] 60
        none).map (fun r => r.stop_reason) = some "completed" :=
  ⟨(stop_reason_selection defaultCaps "manual" 30 none 0 0 [⟨false, true, 0⟩]
      0 none).1 (by decide),
   (stop_reason_selection defaultCaps "manual" 30 none 0 0 [⟨false, false, 30⟩]
      30 none).2.1 (by decide) rfl,
   (stop_reason_selection defaultCaps "auto" 60 none 0 0 [⟨false, false, 60⟩]
      60 none).2.2 (by decide) rfl⟩

/-- Counterexample to claim C8 as stated: a persisted key unknown to the
compiled-in defaults is NOT absent from the merged configuration —
`merged.update(saved)` inserts it, so `_load_config` returns it with its
persisted value. -/
theorem load_config_unknown_key_cex :
    dictLookup (load_config true [("bogus_key", CVal.int 1)]) "bogus_key"
      = some (CVal.int 1) ∧
    dictLookup DEFAULT_CONFIG "bogus_key" = none := by
  decide

/-- Claim C8 (amended): `_load_config` layers the persisted overrides onto
the compiled-in defaults: every key missing from the persisted file takes
its default value, and every persisted key — including keys unknown to the
defaults, which `dict.update` inserts rather than ignores — is present in
the merged configuration with its persisted value. -/
theorem load_config_merge_semantics (saved : CDict) (k : String)
    (hnd : (saved.map Prod.fst).Nodup) :
    (dictLookup saved k = none →
      dictLookup (load_config true saved) k = dictLookup DEFAULT_CONFIG k) ∧
    (∀ v, dictLookup saved k = some v →
      dictLookup (load_config true saved) k = some v) := by
  constructor
  · intro h
    exact dictUpdate_lookup_none _ _ _ h
  · intro v h
    exact dictUpdate_lookup_some _ _ _ _ hnd h

/-- Witness for C8 (amended): a persisted file overriding only the auto
cap; the manual cap falls back to its default and the override wins. -/
theorem load_config_merge_semantics_witness :
    dictLookup (load_config true [("pump_max_runtime_seconds", CVal.int 60)])
        "manual_max_runtime_seconds"
      = dictLookup DEFAULT_CONFIG "manual_max_runtime_seconds" ∧
    dictLookup (load_config true [("pump_max_runtime_seconds", CVal.int 60)])
        "pump_max_runtime_seconds"
      = some (CVal.int 60) :=
  ⟨(load_config_merge_semantics [("pump_max_runtime_seconds", CVal.int 60)]
      "manual_max_runtime_seconds" (by decide)).1 (by decide),
   (load_config_merge_semantics [("pump_max_runtime_seconds", CVal.int 60)]
      "pump_max_runtime_seconds" (by decide)).2 (CVal.int 60) (by decide)⟩

/-- Claim C9: moisture logging is independent of the auto-watering gate:
two monitor cycles identical except for `auto_watering_enabled` update the
moisture cache identically and append identical MoistureReading rows, and
whenever the sensor returns a reading a row is appended even with
`auto_watering_enabled = false`. -/
theorem moisture_logging_independent_of_auto (cfg : Bonsai.MonCfg)
    (b₁ b₂ : Bool) (st : Bonsai.MonState) (reading : Option Moisture)
    (now : Int) :
    (Bonsai.monitor_cycle { cfg with auto_watering_enabled := b₁ } st reading
        now).moistureLog
      = (Bonsai.monitor_cycle { cfg with auto_watering_enabled := b₂ } st
        reading now).moistureLog ∧
    (Bonsai.monitor_cycle { cfg with auto_watering_enabled := b₁ } st reading
        now).current_moisture
      = (Bonsai.monitor_cycle { cfg with auto_watering_enabled := b₂ } st
        reading now).current_moisture ∧
    (∀ m, reading = some m →
      (Bonsai.monitor_cycle { cfg with auto_watering_enabled := false } st
        reading now).moistureLog = [m]) := by
  refine ⟨?_, ?_, fun m hm => ?_⟩ <;> cases reading <;>
    simp_all [Bonsai.monitor_cycle]

/-- Witness for C9: a cycle with a 30% reading and auto watering disabled
still appends the reading. -/
theorem moisture_logging_independent_of_auto_witness :
    (Bonsai.monitor_cycle ⟨false, 35, 65, 28800, 60⟩ ⟨none, 0, false⟩
        (some 30) 0).moistureLog = [(30 : Moisture)] :=
  (moisture_logging_independent_of_auto ⟨true, 35, 65, 28800, 60⟩ true false
      ⟨none, 0, false⟩ (some 30) 0).2.2 30 rfl

/-- Claim C10: the `_pump_worker` of src/bonsai.py and the `_pump_worker`
of src/plugins/bonsai_plugin.py are behaviorally equivalent on the compared
components: for the same mode, requested seconds, caps, cached
moisture-before and the same trace of stop-signal and shutdown
observations, they compute the same clamped run length, select the same
stop_reason, log an identical WateringEvent, and leave the PumpRun record
in the same terminal idle state (for any GPIO readiness of the plugin). -/
theorem pump_worker_variants_agree (gpio_ready : Bool) (cfg : CapsConfig)
    (mode : String) (requested : Int) (before : Option Moisture)
    (startedRec started : Int) (obs : List TickObs) (endNow : Int)
    (after : Option Moisture) :
    (Plugin.pump_worker gpio_ready cfg mode requested before startedRec
        started obs endNow after).map WorkerResult.outcome
      = (Bonsai.pump_worker cfg mode requested before startedRec started obs
        endNow after).map WorkerResult.outcome := by
  simp only [Plugin.pump_worker, Bonsai.pump_worker, plugin_run_seconds_eq,
    plugin_pump_loop_reason_eq]
  cases Bonsai.pump_loop_reason mode
      (started + Bonsai.run_seconds_of cfg mode requested) obs <;>
    simp [WorkerResult.outcome]
